import Mathlib

/-
Verification of the build-tool tag-vocabulary module
(icu4c/source/data/buildtool/__init__.py).

The module consists of seven `collections.namedtuple` declarations, each
with a single field:

  InFile, TmpFile, OutFile, PkgFile  -- field "filename"
  IcuTool, SystemTool                -- field "name"
  DepTarget                          -- field "name"

The embedding models a namedtuple instance as a record carrying its class
tag and its single field value.  CPython semantics that the claims depend
on are embedded explicitly:

  * `==` on namedtuple instances is inherited from `tuple.__eq__`: it
    compares the element tuples and ignores the class, so instances of
    different namedtuple classes with equal values compare equal, and an
    instance compares equal to the plain tuple of its values;
  * `hash` is inherited from `tuple.__hash__`: a deterministic function of
    the element values only (the exact numeric function is irrelevant to
    the contract, only that it factors through the values);
  * attribute assignment on a namedtuple instance raises AttributeError
    (the generated fields are read-only properties on a tuple subtype);
  * indexing and `len` are the tuple operations on the element list;
  * `set.add` inserts an element unless an existing member compares equal
    under `==`.
-/

/-- The seven namedtuple classes declared by the module, in source order. -/
inductive PyType where
  | InFile
  | TmpFile
  | OutFile
  | PkgFile
  | IcuTool
  | SystemTool
  | DepTarget
deriving DecidableEq

/-- The single field name of each class, as written in the source:
`["filename"]` for the four file-kind classes, `["name"]` for the rest. -/
def fieldName : PyType → String
  | PyType.InFile => "filename"
  | PyType.TmpFile => "filename"
  | PyType.OutFile => "filename"
  | PyType.PkgFile => "filename"
  | PyType.IcuTool => "name"
  | PyType.SystemTool => "name"
  | PyType.DepTarget => "name"

/-- The list of classes the module defines, in source order. -/
def allTypes : List PyType :=
  [PyType.InFile, PyType.TmpFile, PyType.OutFile, PyType.PkgFile,
   PyType.IcuTool, PyType.SystemTool, PyType.DepTarget]

/-- A namedtuple instance: its runtime class and its single field value. -/
structure PyRecord where
  ty : PyType
  value : String
deriving DecidableEq

/-- The namedtuple constructor: `V(s)` builds the instance of class `V`
holding `s`. -/
def mkRecord (t : PyType) (s : String) : PyRecord :=
  { ty := t, value := s }

/-- The constructors by their source names. -/
def InFile (s : String) : PyRecord := mkRecord PyType.InFile s

def TmpFile (s : String) : PyRecord := mkRecord PyType.TmpFile s

def OutFile (s : String) : PyRecord := mkRecord PyType.OutFile s

def PkgFile (s : String) : PyRecord := mkRecord PyType.PkgFile s

def IcuTool (s : String) : PyRecord := mkRecord PyType.IcuTool s

def SystemTool (s : String) : PyRecord := mkRecord PyType.SystemTool s

def DepTarget (s : String) : PyRecord := mkRecord PyType.DepTarget s

/-- The element tuple underlying a namedtuple instance (here always a
1-tuple). -/
def values (r : PyRecord) : List String :=
  [r.value]

/-- Python `==` between two namedtuple instances: `tuple.__eq__`, which
compares the element tuples element-wise and ignores the runtime class. -/
def pyEq (a b : PyRecord) : Bool :=
  values a == values b

/-- Python `==` between a namedtuple instance and a plain tuple: again
`tuple.__eq__`, element-wise on the elements. -/
def pyEqTuple (r : PyRecord) (t : List String) : Bool :=
  values r == t

/-- Python `getattr`: a namedtuple instance exposes exactly its declared
field name; any other attribute lookup fails. -/
def getField (r : PyRecord) (f : String) : Option String :=
  if f = fieldName r.ty then some r.value else none

/-- Python `r[i]`: tuple indexing into the element tuple. -/
def getItem (r : PyRecord) (i : Nat) : Option String :=
  (values r).get? i

/-- Python `len(r)`: the length of the element tuple. -/
def pyLen (r : PyRecord) : Nat :=
  (values r).length

/-- A deterministic hash of a string value. -/
def strHash (s : String) : Nat :=
  s.data.foldl (fun a c => a * 31 + c.toNat) 7

/-- Python `hash(r)`: `tuple.__hash__`, a deterministic function of the
element values only (the class tag plays no part). -/
def pyHash (r : PyRecord) : Nat :=
  (values r).foldl (fun a s => a * 33 + strHash s) 5381

/-- Python `set.add`: the element is appended unless some existing member
already compares equal to it under `==`. -/
def setInsert (s : List PyRecord) (r : PyRecord) : List PyRecord :=
  if s.any (fun x => pyEq x r) then s else s ++ [r]

/-- The namedtuple constructor called with an argument tuple: the generated
`__new__` binds exactly one positional argument to the field and performs
no validation; a wrong argument count raises TypeError. -/
def construct (t : PyType) (args : List String) : Except String PyRecord :=
  match args with
  | [s] => Except.ok (mkRecord t s)
  | _ => Except.error "TypeError"

/-- The operations Python exposes on a namedtuple instance. -/
inductive Op where
  | getAttr (f : String)
  | setAttr (f v : String)
  | getItem (i : Nat)
  | lenOp
  | eqOp (other : PyRecord)
  | hashOp
deriving DecidableEq

/-- The result value of an operation. -/
inductive OpResult where
  | str (s : String)
  | nat (n : Nat)
  | bool (b : Bool)
deriving DecidableEq

/-- Running one operation on an instance: the result (or the raised
exception) together with the instance as it stands afterwards.  Attribute
assignment raises AttributeError, as on any tuple subtype with read-only
field properties; no operation produces a changed instance. -/
def runOp (r : PyRecord) : Op → Except String (OpResult × PyRecord)
  | Op.getAttr f =>
      match getField r f with
      | some v => Except.ok (OpResult.str v, r)
      | none => Except.error "AttributeError"
  | Op.setAttr _ _ => Except.error "AttributeError: cannot set attribute"
  | Op.getItem i =>
      match getItem r i with
      | some v => Except.ok (OpResult.str v, r)
      | none => Except.error "IndexError"
  | Op.lenOp => Except.ok (OpResult.nat (pyLen r), r)
  | Op.eqOp o => Except.ok (OpResult.bool (pyEq r o), r)
  | Op.hashOp => Except.ok (OpResult.nat (pyHash r), r)

/-- Construction as a state transformer over an arbitrary external state:
the generated `__new__` only builds and returns the tuple, so the state
passes through unchanged. -/
def constructIn (σ : Type) (t : PyType) (s : String) (w : σ) : PyRecord × σ :=
  (mkRecord t s, w)

/-- Field access as a state transformer: a pure property read. -/
def getFieldIn (σ : Type) (r : PyRecord) (f : String) (w : σ) :
    Option String × σ :=
  (getField r f, w)

/-- Comparison as a state transformer: `tuple.__eq__` reads both operands
and writes nothing. -/
def pyEqIn (σ : Type) (a b : PyRecord) (w : σ) : Bool × σ :=
  (pyEq a b, w)

/-- Hashing as a state transformer: `tuple.__hash__` reads the elements and
writes nothing. -/
def pyHashIn (σ : Type) (r : PyRecord) (w : σ) : Nat × σ :=
  (pyHash r, w)

/-- Helper: `==` on namedtuple instances is reflexive. -/
theorem pyEq_refl (r : PyRecord) : pyEq r r = true := by
  simp [pyEq]

/-- Helper: instances comparing equal under `==` have equal element
tuples. -/
theorem values_eq_of_pyEq {a b : PyRecord} (h : pyEq a b = true) :
    values a = values b :=
  eq_of_beq h

/-- Claim C1, counterexample: `InFile("x") == OutFile("x")` evaluates to
True in the module, because namedtuple equality is inherited tuple
equality and ignores the class tag; the claimed inequality fails. -/
theorem infile_outfile_pyEq_true : pyEq (InFile "x") (OutFile "x") = true := by
  decide

/-- Claim C1 (amended): for every value s and distinct variants V1, V2, the
records V1(s) and V2(s) have distinct runtime classes, but compare equal
under the equality the module actually provides (tuple equality); in
particular InFile("x") == OutFile("x"). -/
theorem distinct_variants_type_distinct_pyEq_equal
    (s : String) (t1 t2 : PyType) (h : t1 ≠ t2) :
    (mkRecord t1 s).ty ≠ (mkRecord t2 s).ty ∧
    pyEq (mkRecord t1 s) (mkRecord t2 s) = true := by
  refine ⟨h, ?_⟩
  simp [pyEq, values, mkRecord]

/-- Witness for the amended C1 at s = "x", V1 = InFile, V2 = OutFile. -/
theorem distinct_variants_witness :
    (mkRecord PyType.InFile "x").ty ≠ (mkRecord PyType.OutFile "x").ty ∧
    pyEq (mkRecord PyType.InFile "x") (mkRecord PyType.OutFile "x") = true :=
  distinct_variants_type_distinct_pyEq_equal "x" PyType.InFile PyType.OutFile
    (by decide)

/-- Claim C2, counterexample: the module does not define eight marker
types; the list of classes it declares has length seven. -/
theorem module_not_eight_types : ¬ allTypes.length = 8 := by
  decide

/-- Claim C2 (amended): the module defines exactly seven distinct
single-field marker types, four of which expose their value under the
field name filename and three under the field name name. -/
theorem module_seven_types_field_split :
    allTypes.length = 7 ∧ allTypes.Nodup ∧
    (allTypes.filter (fun t => fieldName t == "filename")).length = 4 ∧
    (allTypes.filter (fun t => fieldName t == "name")).length = 3 := by
  decide

/-- Claim C3: for every string s and every variant, constructing a record
with value s and reading back its single field (filename or name
respectively) yields s exactly. -/
theorem roundtrip_field_access (s : String) :
    getField (InFile s) "filename" = some s ∧
    getField (TmpFile s) "filename" = some s ∧
    getField (OutFile s) "filename" = some s ∧
    getField (PkgFile s) "filename" = some s ∧
    getField (IcuTool s) "name" = some s ∧
    getField (SystemTool s) "name" = some s ∧
    getField (DepTarget s) "name" = some s := by
  refine ⟨?_, ?_, ?_, ?_, ?_, ?_, ?_⟩ <;>
    simp [getField, InFile, TmpFile, OutFile, PkgFile, IcuTool, SystemTool,
      DepTarget, mkRecord, fieldName]

/-- Witness for C3 at the concrete input of the spec scenario:
IcuTool("genrb").name = "genrb". -/
theorem roundtrip_field_access_witness :
    getField (IcuTool "genrb") "name" = some "genrb" :=
  (roundtrip_field_access "genrb").2.2.2.2.1

/-- Claim C4: within one variant, records are equal iff their values are
equal, both under Python == and as structural identity. -/
theorem same_variant_eq_iff_value_eq (t : PyType) (s1 s2 : String) :
    (pyEq (mkRecord t s1) (mkRecord t s2) = true ↔ s1 = s2) ∧
    (mkRecord t s1 = mkRecord t s2 ↔ s1 = s2) := by
  constructor
  · simp [pyEq, values, mkRecord]
  · constructor
    · intro h
      exact congrArg PyRecord.value h
    · intro h
      rw [h]

/-- Witness for C4 at the spec scenario: InFile("foo.txt") equals
InFile("foo.txt"). -/
theorem same_variant_eq_iff_value_eq_witness :
    pyEq (InFile "foo.txt") (InFile "foo.txt") = true :=
  ((same_variant_eq_iff_value_eq PyType.InFile "foo.txt" "foo.txt").1).mpr rfl

/-- Claim C5: records are immutable: every operation that succeeds leaves
the record exactly as it was, and attempting to assign to a field raises
AttributeError rather than mutating the record. -/
theorem records_immutable :
    (∀ (r : PyRecord) (op : Op) (p : OpResult × PyRecord),
       runOp r op = Except.ok p → p.2 = r) ∧
    (∀ (r : PyRecord) (f v : String),
       runOp r (Op.setAttr f v) =
         Except.error "AttributeError: cannot set attribute") := by
  constructor
  · intro r op p h
    cases op with
    | getAttr f =>
        simp only [runOp] at h
        cases hg : getField r f with
        | some v =>
            rw [hg] at h
            injection h with h2
            rw [← h2]
        | none =>
            rw [hg] at h
            exact Except.noConfusion h
    | setAttr f v => exact Except.noConfusion h
    | getItem i =>
        simp only [runOp] at h
        cases hg : getItem r i with
        | some v =>
            rw [hg] at h
            injection h with h2
            rw [← h2]
        | none =>
            rw [hg] at h
            exact Except.noConfusion h
    | lenOp =>
        injection h with h2
        rw [← h2]
    | eqOp o =>
        injection h with h2
        rw [← h2]
    | hashOp =>
        injection h with h2
        rw [← h2]
  · intro r f v
    rfl

/-- Witness for C5: on InFile("x"), reading the field succeeds and leaves
the record unchanged, and assigning to it fails. -/
theorem records_immutable_witness :
    ((OpResult.str "x", InFile "x") : OpResult × PyRecord).2 = InFile "x" ∧
    runOp (InFile "x") (Op.setAttr "filename" "y") =
      Except.error "AttributeError: cannot set attribute" :=
  ⟨records_immutable.1 (InFile "x") (Op.getAttr "filename")
      (OpResult.str "x", InFile "x") rfl,
   records_immutable.2 (InFile "x") "filename" "y"⟩

/-- Claim C6: inserting V(s) twice into an empty set yields a set of
exactly one element, and records comparing equal have equal hashes. -/
theorem set_dedup_and_hash_compat :
    (∀ (t : PyType) (s : String),
       (setInsert (setInsert [] (mkRecord t s)) (mkRecord t s)).length = 1) ∧
    (∀ (a b : PyRecord), pyEq a b = true → pyHash a = pyHash b) := by
  constructor
  · intro t s
    simp [setInsert, pyEq_refl]
  · intro a b h
    simp [pyHash, values_eq_of_pyEq h]

/-- Witness for C6 at the spec scenario: a set built from DepTarget("pkgA")
inserted twice has exactly one element, and its hash agrees with itself. -/
theorem set_dedup_and_hash_compat_witness :
    (setInsert (setInsert [] (DepTarget "pkgA")) (DepTarget "pkgA")).length
      = 1 ∧
    pyHash (DepTarget "pkgA") = pyHash (DepTarget "pkgA") :=
  ⟨set_dedup_and_hash_compat.1 PyType.DepTarget "pkgA",
   set_dedup_and_hash_compat.2 (DepTarget "pkgA") (DepTarget "pkgA")
     (by decide)⟩

/-- Claim C7: construction succeeds for every variant and every value with
no validation or normalization, including the empty string: the field
holds the argument unchanged. -/
theorem construction_total_no_validation (t : PyType) (s : String) :
    construct t [s] = Except.ok (mkRecord t s) ∧
    (mkRecord t s).value = s ∧
    construct t [""] = Except.ok (mkRecord t "") :=
  ⟨rfl, rfl, rfl⟩

/-- Claim C8: construction is deterministic (two runs from any two external
states yield the same record, equal under Python ==), and construction,
field access, comparison and hashing all leave the external state
untouched. -/
theorem construction_pure_deterministic
    (σ : Type) (w w' : σ) (t : PyType) (s : String) (a b : PyRecord)
    (f : String) :
    (constructIn σ t s w).1 = (constructIn σ t s w').1 ∧
    pyEq (constructIn σ t s w).1 (constructIn σ t s w').1 = true ∧
    (constructIn σ t s w).2 = w ∧
    (getFieldIn σ a f w).2 = w ∧
    (pyEqIn σ a b w).2 = w ∧
    (pyHashIn σ a w).2 = w :=
  ⟨rfl, pyEq_refl _, rfl, rfl, rfl, rfl⟩

/-- Claim C9: every record compares equal to the plain one-element tuple of
its value, because a namedtuple is a tuple subtype with element-wise
equality. -/
theorem record_eq_plain_tuple (t : PyType) (s : String) :
    pyEqTuple (mkRecord t s) [s] = true := by
  simp [pyEqTuple, values, mkRecord]

/-- Claim C10: the single field is also accessible positionally: index 0
yields the value, and the record has length exactly 1. -/
theorem positional_access_and_length (t : PyType) (s : String) :
    getItem (mkRecord t s) 0 = some s ∧ pyLen (mkRecord t s) = 1 :=
  ⟨rfl, rfl⟩
